import Mathlib

/-!
Verification of the N1 encoder plugin (`src/main.rs`) through a shallow
embedding in Lean 4.  Pure functions of the source are translated to Lean
functions; the effectful glue (shell execution, host callbacks, the watcher
and device-session loops) is modelled by explicit effect values and a labelled
small-step transition system over the plugin's shared state.
-/

namespace N1Plugin

/-! ## Device identification constants (src/main.rs lines 33-46) -/

def N1_VID : Nat := 0x0300
def N1_PID : Nat := 0x3007
def DEVICE_NAMESPACE : String := "N1"

def INPUT_DIAL_CCW : Nat := 50
def INPUT_DIAL_CW : Nat := 51
def INPUT_DIAL_PRESS : Nat := 35

/-! ## Vendor-library data types used by the plugin (modelled with the fields
and variants the plugin reads or constructs) -/

/-- The only `MirajazzError` variant the plugin ever constructs is `BadData`
(line 335). -/
inductive MirajazzError where
  | badData
deriving DecidableEq, Repr

/-- `mirajazz::types::DeviceInput`, restricted to the variants
`process_input_n1` constructs: `EncoderTwist(Vec<i8>)` and
`EncoderStateChange(Vec<bool>)`. -/
inductive DeviceInput where
  | encoderTwist (twists : List Int)
  | encoderStateChange (states : List Bool)
deriving DecidableEq, Repr

/-- `mirajazz::types::HidDeviceInfo`, restricted to the fields
`get_device_id` reads: `vendor_id`, `product_id`, `serial_number`. -/
structure HidDeviceInfo where
  vendor_id : Nat
  product_id : Nat
  serial_number : Option String
deriving DecidableEq, Repr

/-- `mirajazz::state::DeviceStateUpdate`: the five variants matched
exhaustively by `handle_device_update` (lines 344-387). -/
inductive DeviceStateUpdate where
  | buttonDown (key : Nat)
  | buttonUp (key : Nat)
  | encoderDown (enc : Nat)
  | encoderUp (enc : Nat)
  | encoderTwist (enc : Nat) (val : Int)
deriving DecidableEq, Repr

/-! ## Action settings (src/main.rs lines 48-85) -/

/-- `ActionMode` (lines 51-58). -/
inductive ActionMode where
  | volume
  | mediaTrack
  | mediaSeek
  | scroll
  | brightness
  | custom
deriving DecidableEq, Repr

/-- `impl Default for ActionMode` (lines 60-64). -/
def ActionMode.default : ActionMode := ActionMode.volume

/-- `ActionSettings` (lines 67-75). -/
structure ActionSettings where
  mode : ActionMode
  cw_command : String
  ccw_command : String
deriving DecidableEq, Repr

/-- `impl Default for ActionSettings` (lines 77-85). -/
def ActionSettings.default : ActionSettings :=
  { mode := ActionMode.volume, cw_command := "", ccw_command := "" }

/-! ## Input translation (src/main.rs lines 327-337) -/

/-- `process_input_n1` (lines 327-337): the Rust `match input` with arms
`INPUT_DIAL_CCW` (50), `INPUT_DIAL_CW` (51), `INPUT_DIAL_PRESS` (35) and a
catch-all returning `MirajazzError::BadData`, written as the equivalent
if-chain on the scrutinee. -/
def process_input_n1 (input input_state : Nat) :
    Except MirajazzError DeviceInput :=
  if input = INPUT_DIAL_CCW then
    Except.ok (DeviceInput.encoderTwist [0, 0, -1])
  else if input = INPUT_DIAL_CW then
    Except.ok (DeviceInput.encoderTwist [0, 0, 1])
  else if input = INPUT_DIAL_PRESS then
    Except.ok (DeviceInput.encoderStateChange [false, false, input_state != 0])
  else
    Except.error MirajazzError.badData

/-- `Result::is_ok` on the value returned by `process_input_n1`. -/
def resultIsOk (r : Except MirajazzError DeviceInput) : Bool :=
  match r with
  | Except.ok _ => true
  | Except.error _ => false

/-! ## Device identification (src/main.rs lines 149-156) -/

/-- `get_device_id` (lines 149-156): `Some(format!("{}-{}", DEVICE_NAMESPACE,
dev.serial_number.clone()?))` when the vendor and product ids match, `None`
otherwise; the `?` propagates a missing serial number as `None`. -/
def get_device_id (dev : HidDeviceInfo) : Option String :=
  if dev.vendor_id = N1_VID ∧ dev.product_id = N1_PID then
    dev.serial_number.map (fun s => DEVICE_NAMESPACE ++ "-" ++ s)
  else
    none

/-! ## Shell command construction and execution
(src/main.rs lines 396-491).  Every `execute_*` function's observable effect
is the command string it passes to `Command::new("sh").arg("-c").arg(cmd)`;
we model that effect as a `ShellInvocation` value, `none` meaning no process
is spawned. -/

/-- One `Command::new(program).arg(flag).arg(command)` process spawn. -/
structure ShellInvocation where
  program : String
  flag : String
  command : String
deriving DecidableEq, Repr

/-- Abbreviation for the `sh -c <cmd>` spawn every `execute_*` performs. -/
def shC (cmd : String) : ShellInvocation :=
  { program := "sh", flag := "-c", command := cmd }

/-- `execute_volume` (lines 421-431). -/
def execute_volume (direction : Int) : Option ShellInvocation :=
  some (shC ("amixer sset Master 5%" ++ (if direction > 0 then "+" else "-")))

/-- `execute_media_track` (lines 433-442). -/
def execute_media_track (direction : Int) : Option ShellInvocation :=
  some (shC (if direction > 0 then "playerctl next" else "playerctl previous"))

/-- `execute_media_seek` (lines 444-453). -/
def execute_media_seek (direction : Int) : Option ShellInvocation :=
  some (shC (if direction > 0 then "playerctl position 5+" else "playerctl position 5-"))

/-- `execute_scroll` (lines 455-465): `button = if direction > 0 { 5 } else { 4 }`,
command `format!("xdotool click --repeat 3 {}", button)`. -/
def execute_scroll (direction : Int) : Option ShellInvocation :=
  some (shC ("xdotool click --repeat 3 " ++
    toString (if direction > 0 then (5 : Nat) else 4)))

/-- `execute_brightness` (lines 467-477). -/
def execute_brightness (direction : Int) : Option ShellInvocation :=
  some (shC ("brightnessctl set 10%" ++ (if direction > 0 then "+" else "-")))

/-- `execute_custom` (lines 479-491): picks `cw_command`/`ccw_command` by
`direction > 0` and returns without spawning anything when it is empty. -/
def execute_custom (direction : Int) (settings : ActionSettings) :
    Option ShellInvocation :=
  let cmd := if direction > 0 then settings.cw_command else settings.ccw_command
  if cmd = "" then none else some (shC cmd)

/-- The `match settings.mode` dispatch inside `execute_rotation`
(lines 403-410), factored over its `settings`. -/
def rotation_dispatch (settings : ActionSettings) (direction : Int) :
    Option ShellInvocation :=
  match settings.mode with
  | ActionMode.volume => execute_volume direction
  | ActionMode.mediaTrack => execute_media_track direction
  | ActionMode.mediaSeek => execute_media_seek direction
  | ActionMode.scroll => execute_scroll direction
  | ActionMode.brightness => execute_brightness direction
  | ActionMode.custom => execute_custom direction settings

/-- `execute_rotation` (lines 396-415): constructs `ActionSettings::default()`
(line 399) and dispatches on it. -/
def execute_rotation (direction : Int) : Option ShellInvocation :=
  rotation_dispatch ActionSettings.default direction

/-! ## Device update handling (src/main.rs lines 340-388).
The observable effect of one `handle_device_update` call is either a local
`execute_rotation` (itself an optional shell spawn) or one host plugin
callback. -/

/-- The single effect performed by `handle_device_update` for one update. -/
inductive HandlerEffect where
  | runLocal (spawn : Option ShellInvocation)
  | hostEncoderDown (dev : String) (enc : Nat)
  | hostEncoderUp (dev : String) (enc : Nat)
  | hostEncoderChange (dev : String) (enc : Nat) (val : Int)
  | hostKeyDown (dev : String) (key : Nat)
  | hostKeyUp (dev : String) (key : Nat)
deriving DecidableEq, Repr

/-- `true` exactly when the effect is a call into the host plugin API. -/
def HandlerEffect.isHostCall : HandlerEffect → Bool
  | HandlerEffect.runLocal _ => false
  | _ => true

/-- `handle_device_update` (lines 340-388).  The Rust match separates
`EncoderDown(2)`/`EncoderUp(2)` (which log at a different level) from
`EncoderDown(enc)`/`EncoderUp(enc)`, but both arms invoke the same host
callback with the same arguments, so the arms are merged here; only
`EncoderTwist(2, val)` behaves differently from its general arm. -/
def handle_device_update (device_id : String) :
    DeviceStateUpdate → HandlerEffect
  | DeviceStateUpdate.encoderTwist enc val =>
      if enc = 2 then HandlerEffect.runLocal (execute_rotation val)
      else HandlerEffect.hostEncoderChange device_id enc val
  | DeviceStateUpdate.encoderDown enc => HandlerEffect.hostEncoderDown device_id enc
  | DeviceStateUpdate.encoderUp enc => HandlerEffect.hostEncoderUp device_id enc
  | DeviceStateUpdate.buttonDown key => HandlerEffect.hostKeyDown device_id key
  | DeviceStateUpdate.buttonUp key => HandlerEffect.hostKeyUp device_id key

/-! ## Map model.
`PluginState.devices : HashMap<String, ()>` is modelled as a duplicate-free
list of keys, `PluginState.tokens : HashMap<String, CancellationToken>` as an
association list keyed by id, token values being numbered by creation order. -/

/-- `HashMap::contains_key` / insertion of a unit value: add the key if absent. -/
def setInsert (s : List String) (k : String) : List String :=
  if k ∈ s then s else k :: s

/-- `HashMap::remove` on the key set. -/
def listErase (s : List String) (k : String) : List String :=
  s.filter (fun x => x != k)

/-- `HashMap::remove` on the token map. -/
def mapErase (m : List (String × Nat)) (k : String) : List (String × Nat) :=
  m.filter (fun p => p.1 != k)

/-- `HashMap::insert`: replaces any previous binding of the key. -/
def mapInsert (m : List (String × Nat)) (k : String) (v : Nat) :
    List (String × Nat) :=
  (k, v) :: mapErase m k

/-! ## Watcher Disconnected branch (src/main.rs lines 183-191). -/

/-- The effect of the `DeviceLifecycleEvent::Disconnected(info)` branch on the
shared maps: the resulting maps, the token removed and cancelled (if any
binding existed), and the id passed to `unregister_device` (if any). -/
structure DisconnectResult where
  devices : List String
  tokens : List (String × Nat)
  cancelledToken : Option Nat
  unregistered : Option String
deriving DecidableEq, Repr

/-- The `Disconnected` branch (lines 183-191): when `get_device_id` yields an
id, remove it from `tokens` (cancelling the removed token when present) and
from `devices`, and unregister it from the host; otherwise do nothing. -/
def handleDisconnected (info : HidDeviceInfo) (devices : List String)
    (tokens : List (String × Nat)) : DisconnectResult :=
  match get_device_id info with
  | none =>
      { devices := devices, tokens := tokens,
        cancelledToken := none, unregistered := none }
  | some id =>
      { devices := listErase devices id,
        tokens := mapErase tokens id,
        cancelledToken := List.lookup id tokens,
        unregistered := some id }

/-! ## Transition system for the watcher and device-session tasks
(src/main.rs lines 159-323).

One watcher task runs `watcher_task`: it alternates between processing one
lifecycle event and running `scan_and_connect_devices` to completion, so at
most one scan is in progress at a time (modelled by `scanQueue`, the list of
devices the current scan still has to examine; `[]` means no scan running).
Each `tokio::spawn(handle_device(..))` adds a concurrently running session
task.  A session is observable in two phases:

* `starting` — between the spawn (line 220) and the insertion of its id into
  the `devices` map (line 287); the connect / set_mode / register calls all
  happen here and on failure the session removes its token and exits;
* `looping` — the `reader.read` / `token.cancelled()` select loop
  (lines 295-315); it exits on cancellation or read error and then runs the
  cleanup at lines 318-322 (remove from `devices`, remove from `tokens`,
  `unregister_device`).

Token values are numbered by `fresh`; `cancelled` records the tokens on which
`cancel()` was called.  `unregList` logs the ids passed to
`unregister_device`. -/

/-- Phase of one spawned `handle_device` session task. -/
inductive SessionPhase where
  | starting
  | looping
deriving DecidableEq, Repr

/-- One spawned `handle_device` task: its device id, the token it was given
at spawn time, and its phase. -/
structure SessionTask where
  id : String
  tok : Nat
  phase : SessionPhase
deriving DecidableEq, Repr

/-- The plugin's shared state plus the running tasks. -/
structure Sys where
  devices : List String
  tokens : List (String × Nat)
  cancelled : List Nat
  fresh : Nat
  scanQueue : List HidDeviceInfo
  sessions : List SessionTask
  unregList : List String
deriving DecidableEq, Repr

/-- The state at plugin start: empty maps, no scan, no sessions. -/
def initSys : Sys :=
  { devices := [], tokens := [], cancelled := [], fresh := 0,
    scanQueue := [], sessions := [], unregList := [] }

/-- Labels naming which piece of source code a step executes. -/
inductive Label where
  | startScan (devs : List HidDeviceInfo)
  | scanNoId
  | scanSkip (id : String)
  | spawn (id : String)
  | register (id : String)
  | connectFail (id : String)
  | cancelTerm (id : String) (tok : Nat)
  | readErr (id : String) (tok : Nat)
  | disconnect (info : HidDeviceInfo)
deriving DecidableEq, Repr

/-- Small-step semantics of the watcher and session tasks. -/
inductive Step : Sys → Label → Sys → Prop where
  /-- `scan_and_connect_devices` begins (line 174 or 181) with the device
  list returned by `list_devices`; the watcher runs one scan at a time. -/
  | startScan (s : Sys) (devs : List HidDeviceInfo) :
      s.scanQueue = [] →
      Step s (Label.startScan devs) { s with scanQueue := devs }
  /-- Scan examines a device whose info yields no id (line 211 `if let` fails). -/
  | scanNoId (s : Sys) (d : HidDeviceInfo) (rest : List HidDeviceInfo) :
      s.scanQueue = d :: rest →
      get_device_id d = none →
      Step s Label.scanNoId { s with scanQueue := rest }
  /-- Scan skips an id already present in the `devices` map (lines 212-214). -/
  | scanSkip (s : Sys) (d : HidDeviceInfo) (rest : List HidDeviceInfo)
      (id : String) :
      s.scanQueue = d :: rest →
      get_device_id d = some id →
      id ∈ s.devices →
      Step s (Label.scanSkip id) { s with scanQueue := rest }
  /-- Scan finds an id absent from `devices`: create a token, store it in
  `tokens`, and spawn `handle_device` (lines 216-220). -/
  | scanSpawn (s : Sys) (d : HidDeviceInfo) (rest : List HidDeviceInfo)
      (id : String) :
      s.scanQueue = d :: rest →
      get_device_id d = some id →
      id ∉ s.devices →
      Step s (Label.spawn id)
        { s with scanQueue := rest,
                 tokens := mapInsert s.tokens id s.fresh,
                 fresh := s.fresh + 1,
                 sessions := s.sessions ++
                   [{ id := id, tok := s.fresh, phase := SessionPhase.starting }] }
  /-- A starting session finishes connect/register and inserts its id into
  `devices` (line 287), entering the read loop (line 295). -/
  | register (s : Sys) (pre post : List SessionTask) (id : String) (tok : Nat) :
      s.sessions =
        pre ++ { id := id, tok := tok, phase := SessionPhase.starting } :: post →
      Step s (Label.register id)
        { s with devices := setInsert s.devices id,
                 sessions := pre ++
                   { id := id, tok := tok, phase := SessionPhase.looping } :: post }
  /-- A starting session fails connect/set_mode/register: it removes its token
  and exits (lines 249-253, 257-261, 279-282). -/
  | connectFail (s : Sys) (pre post : List SessionTask) (id : String) (tok : Nat) :
      s.sessions =
        pre ++ { id := id, tok := tok, phase := SessionPhase.starting } :: post →
      Step s (Label.connectFail id)
        { s with tokens := mapErase s.tokens id, sessions := pre ++ post }
  /-- A looping session whose token has been cancelled takes the
  `token.cancelled()` select branch (lines 310-313) and runs the cleanup at
  lines 318-322. -/
  | cancelTerm (s : Sys) (pre post : List SessionTask) (id : String) (tok : Nat) :
      s.sessions =
        pre ++ { id := id, tok := tok, phase := SessionPhase.looping } :: post →
      tok ∈ s.cancelled →
      Step s (Label.cancelTerm id tok)
        { s with devices := listErase s.devices id,
                 tokens := mapErase s.tokens id,
                 sessions := pre ++ post,
                 unregList := s.unregList ++ [id] }
  /-- A looping session hits a read error (lines 304-307) and runs the same
  cleanup at lines 318-322. -/
  | readErr (s : Sys) (pre post : List SessionTask) (id : String) (tok : Nat) :
      s.sessions =
        pre ++ { id := id, tok := tok, phase := SessionPhase.looping } :: post →
      Step s (Label.readErr id tok)
        { s with devices := listErase s.devices id,
                 tokens := mapErase s.tokens id,
                 sessions := pre ++ post,
                 unregList := s.unregList ++ [id] }
  /-- The watcher processes a `Disconnected` event (lines 183-191); it only
  does so between scans. -/
  | disconnect (s : Sys) (info : HidDeviceInfo) :
      s.scanQueue = [] →
      Step s (Label.disconnect info)
        { s with devices := (handleDisconnected info s.devices s.tokens).devices,
                 tokens := (handleDisconnected info s.devices s.tokens).tokens,
                 cancelled :=
                   match (handleDisconnected info s.devices s.tokens).cancelledToken with
                   | some t => t :: s.cancelled
                   | none => s.cancelled,
                 unregList :=
                   match (handleDisconnected info s.devices s.tokens).unregistered with
                   | some id => s.unregList ++ [id]
                   | none => s.unregList }

/-- Finite executions of the transition system. -/
inductive Steps : Sys → Sys → Prop where
  | refl (s : Sys) : Steps s s
  | tail {s t u : Sys} (st : Steps s t) (l : Label) (tu : Step t l u) :
      Steps s u

/-- Number of read loops (sessions in their select loop) running for a
given device id. -/
def readLoopCount (s : Sys) (id : String) : Nat :=
  (s.sessions.filter
    (fun h => h.id == id && h.phase == SessionPhase.looping)).length

/-! ## Concrete states used to exercise the transition system -/

/-- A concrete N1 device info (matching vendor, product and serial). -/
def devX : HidDeviceInfo :=
  { vendor_id := 0x0300, product_id := 0x3007, serial_number := some "SER" }

/-- The id `get_device_id` derives for `devX`. -/
def idX : String := "N1-SER"

/-- After the initial scan started on `[devX]`. -/
def traceA : Sys := { initSys with scanQueue := [devX] }

/-- After the first scan spawned a session for `devX`. -/
def traceB : Sys :=
  { devices := [], tokens := [(idX, 0)], cancelled := [], fresh := 1,
    scanQueue := [],
    sessions := [{ id := idX, tok := 0, phase := SessionPhase.starting }],
    unregList := [] }

/-- A second scan (triggered by a `Connected` event) started while the first
session is still connecting. -/
def traceC : Sys := { traceB with scanQueue := [devX] }

/-- The second scan spawned a second session for the same id: the guard at
lines 212-214 consulted the `devices` map, which the first session has not
yet populated. -/
def traceD : Sys :=
  { devices := [], tokens := [(idX, 1)], cancelled := [], fresh := 2,
    scanQueue := [],
    sessions := [{ id := idX, tok := 0, phase := SessionPhase.starting },
                 { id := idX, tok := 1, phase := SessionPhase.starting }],
    unregList := [] }

/-- The first session registered and entered its read loop. -/
def traceE : Sys :=
  { traceD with
    devices := [idX],
    sessions := [{ id := idX, tok := 0, phase := SessionPhase.looping },
                 { id := idX, tok := 1, phase := SessionPhase.starting }] }

/-- Both sessions are now in their read loops: two read loops for `idX`. -/
def dupLoopSys : Sys :=
  { devices := [idX], tokens := [(idX, 1)], cancelled := [], fresh := 2,
    scanQueue := [],
    sessions := [{ id := idX, tok := 0, phase := SessionPhase.looping },
                 { id := idX, tok := 1, phase := SessionPhase.looping }],
    unregList := [] }

/-- A state with one read loop for `idX` whose token has been cancelled. -/
def cancelSys : Sys :=
  { devices := [idX], tokens := [(idX, 0)], cancelled := [0], fresh := 1,
    scanQueue := [],
    sessions := [{ id := idX, tok := 0, phase := SessionPhase.looping }],
    unregList := [] }

/-- The state after that read loop takes its cancellation step. -/
def afterCancelSys : Sys :=
  { devices := [], tokens := [], cancelled := [0], fresh := 1,
    scanQueue := [], sessions := [], unregList := [idX] }

/-! ## Theorems -/

/-- Claim C1: `process_input_n1` translates input code 50 to an encoder twist
of -1, code 51 to a twist of +1, and code 35 to a press event when the state
byte is nonzero and a release event when it is zero; every twist it emits has
magnitude exactly 1. -/
theorem c1_input_translation :
    (∀ st : Nat, process_input_n1 50 st =
      Except.ok (DeviceInput.encoderTwist [0, 0, -1])) ∧
    (∀ st : Nat, process_input_n1 51 st =
      Except.ok (DeviceInput.encoderTwist [0, 0, 1])) ∧
    (∀ st : Nat, st ≠ 0 → process_input_n1 35 st =
      Except.ok (DeviceInput.encoderStateChange [false, false, true])) ∧
    (∀ st : Nat, st = 0 → process_input_n1 35 st =
      Except.ok (DeviceInput.encoderStateChange [false, false, false])) ∧
    (∀ i st : Nat, ∀ v : List Int,
      process_input_n1 i st = Except.ok (DeviceInput.encoderTwist v) →
      (v.getD 2 0).natAbs = 1) := by
  refine ⟨fun st => rfl, fun st => rfl, ?_, ?_, ?_⟩
  · intro st h
    simp [process_input_n1, INPUT_DIAL_CCW, INPUT_DIAL_CW, INPUT_DIAL_PRESS,
      bne_iff_ne, h]
  · intro st h
    subst h
    rfl
  · intro i st v h
    simp only [process_input_n1] at h
    split_ifs at h <;> simp_all <;> simp [← h]

/-- Witness for C1 at concrete inputs. -/
theorem c1_input_translation_witness :
    process_input_n1 35 7 =
      Except.ok (DeviceInput.encoderStateChange [false, false, true]) ∧
    process_input_n1 35 0 =
      Except.ok (DeviceInput.encoderStateChange [false, false, false]) ∧
    (([0, 0, 1] : List Int).getD 2 0).natAbs = 1 :=
  ⟨c1_input_translation.2.2.1 7 (by decide),
   c1_input_translation.2.2.2.1 0 rfl,
   c1_input_translation.2.2.2.2 51 0 [0, 0, 1] rfl⟩

/-- Claim C5: `process_input_n1` returns `MirajazzError::BadData` exactly when
the input code is none of 50, 51, 35, and returns `Ok` for those three codes
at every state byte. -/
theorem c5_bad_data_iff :
    ∀ i st : Nat,
      (process_input_n1 i st = Except.error MirajazzError.badData ↔
        ¬ (i = 50 ∨ i = 51 ∨ i = 35)) ∧
      ((i = 50 ∨ i = 51 ∨ i = 35) → resultIsOk (process_input_n1 i st) = true) := by
  intro i st
  by_cases h1 : i = 50 <;> by_cases h2 : i = 51 <;> by_cases h3 : i = 35 <;>
    simp_all [process_input_n1, INPUT_DIAL_CCW, INPUT_DIAL_CW,
      INPUT_DIAL_PRESS, resultIsOk]

/-- Witness for C5 at concrete inputs. -/
theorem c5_bad_data_iff_witness :
    resultIsOk (process_input_n1 50 0) = true ∧
    process_input_n1 49 0 = Except.error MirajazzError.badData :=
  ⟨(c5_bad_data_iff 50 0).2 (Or.inl rfl),
   (c5_bad_data_iff 49 0).1.mpr (by decide)⟩

/-- Claim C9: every vector emitted by `process_input_n1` has length exactly 3
and leaves encoders 0 and 1 unaffected: twist vectors are 0 there and state
vectors are `false` there, and only index 2 carries the twist (of magnitude 1)
or the press state. -/
theorem c9_face_buttons_unaffected :
    (∀ i st : Nat, ∀ v : List Int,
      process_input_n1 i st = Except.ok (DeviceInput.encoderTwist v) →
      v.length = 3 ∧ v.getD 0 0 = 0 ∧ v.getD 1 0 = 0 ∧
        (v.getD 2 0 = -1 ∨ v.getD 2 0 = 1)) ∧
    (∀ i st : Nat, ∀ b : List Bool,
      process_input_n1 i st = Except.ok (DeviceInput.encoderStateChange b) →
      b.length = 3 ∧ b.getD 0 true = false ∧ b.getD 1 true = false) := by
  constructor
  · intro i st v h
    simp only [process_input_n1] at h
    split_ifs at h <;> simp_all <;> simp [← h]
  · intro i st b h
    simp only [process_input_n1] at h
    split_ifs at h <;> simp_all
    simp [← h]

/-- Witness for C9 at concrete inputs. -/
theorem c9_face_buttons_unaffected_witness :
    (([0, 0, -1] : List Int).length = 3 ∧
      ([0, 0, -1] : List Int).getD 0 0 = 0 ∧
      ([0, 0, -1] : List Int).getD 1 0 = 0 ∧
      (([0, 0, -1] : List Int).getD 2 0 = -1 ∨
        ([0, 0, -1] : List Int).getD 2 0 = 1)) ∧
    (([false, false, false] : List Bool).length = 3 ∧
      ([false, false, false] : List Bool).getD 0 true = false ∧
      ([false, false, false] : List Bool).getD 1 true = false) :=
  ⟨c9_face_buttons_unaffected.1 50 0 [0, 0, -1] rfl,
   c9_face_buttons_unaffected.2 35 0 [false, false, false] rfl⟩

/-- Claim C2: the rotation dispatch is a fixed 6-case table from mode and
direction sign to a shell command run via `sh -c`: amixer for Volume,
playerctl next/previous for MediaTrack, playerctl position for MediaSeek,
xdotool buttons 5/4 for Scroll, brightnessctl for Brightness, and the
configured (nonempty) cw/ccw command for Custom. -/
theorem c2_rotation_dispatch_table :
    ∀ (s : ActionSettings) (d : Int),
      (s.mode = ActionMode.volume → rotation_dispatch s d =
        some (shC ("amixer sset Master 5%" ++ (if d > 0 then "+" else "-")))) ∧
      (s.mode = ActionMode.mediaTrack → rotation_dispatch s d =
        some (shC (if d > 0 then "playerctl next" else "playerctl previous"))) ∧
      (s.mode = ActionMode.mediaSeek → rotation_dispatch s d =
        some (shC (if d > 0 then "playerctl position 5+"
                   else "playerctl position 5-"))) ∧
      (s.mode = ActionMode.scroll → rotation_dispatch s d =
        some (shC ("xdotool click --repeat 3 " ++ (if d > 0 then "5" else "4")))) ∧
      (s.mode = ActionMode.brightness → rotation_dispatch s d =
        some (shC ("brightnessctl set 10%" ++ (if d > 0 then "+" else "-")))) ∧
      (s.mode = ActionMode.custom →
        (d > 0 → s.cw_command ≠ "" →
          rotation_dispatch s d = some (shC s.cw_command)) ∧
        (¬ d > 0 → s.ccw_command ≠ "" →
          rotation_dispatch s d = some (shC s.ccw_command))) := by
  intro s d
  obtain ⟨m, cw, ccw⟩ := s
  refine ⟨?_, ?_, ?_, ?_, ?_, ?_⟩ <;> intro h <;> subst h
  · rfl
  · rfl
  · rfl
  · by_cases hd : d > 0 <;>
      simp [rotation_dispatch, execute_scroll, shC, hd] <;> decide
  · rfl
  · constructor
    · intro hd hne
      simp [rotation_dispatch, execute_custom, hd, hne]
    · intro hd hne
      simp [rotation_dispatch, execute_custom, hd, hne]

/-- Witness for C2 at concrete settings and directions. -/
theorem c2_rotation_dispatch_table_witness :
    rotation_dispatch
        { mode := ActionMode.volume, cw_command := "", ccw_command := "" } 1 =
      some (shC ("amixer sset Master 5%" ++ (if (1 : Int) > 0 then "+" else "-"))) ∧
    rotation_dispatch
        { mode := ActionMode.scroll, cw_command := "", ccw_command := "" } (-1) =
      some (shC ("xdotool click --repeat 3 " ++
        (if (-1 : Int) > 0 then "5" else "4"))) ∧
    rotation_dispatch
        { mode := ActionMode.custom, cw_command := "x", ccw_command := "y" } 1 =
      some (shC "x") :=
  ⟨(c2_rotation_dispatch_table _ 1).1 rfl,
   (c2_rotation_dispatch_table _ (-1)).2.2.2.1 rfl,
   ((c2_rotation_dispatch_table _ 1).2.2.2.2.2 rfl).1 (by decide) (by decide)⟩

/-- Claim C3: `execute_rotation` always builds `ActionSettings::default()`
(Volume mode, empty custom commands), so every call dispatches the Volume
command regardless of any configured settings. -/
theorem c3_always_default_settings :
    ActionSettings.default =
      { mode := ActionMode.volume, cw_command := "", ccw_command := "" } ∧
    (∀ d : Int, execute_rotation d = rotation_dispatch ActionSettings.default d) ∧
    (∀ d : Int, execute_rotation d = execute_volume d) :=
  ⟨rfl, fun _ => rfl, fun _ => rfl⟩

/-- Claim C10: a direction of 0 is handled as counter-clockwise by every
command builder, because each tests `direction > 0`: at 0 they produce the
same commands as at -1 (volume and brightness pick "-", media track picks
"playerctl previous", seek picks "playerctl position 5-", scroll picks
button 4). -/
theorem c10_zero_direction_is_ccw :
    execute_volume 0 = some (shC "amixer sset Master 5%-") ∧
    execute_brightness 0 = some (shC "brightnessctl set 10%-") ∧
    execute_media_track 0 = some (shC "playerctl previous") ∧
    execute_media_seek 0 = some (shC "playerctl position 5-") ∧
    execute_scroll 0 = some (shC "xdotool click --repeat 3 4") ∧
    execute_volume 0 = execute_volume (-1) ∧
    execute_brightness 0 = execute_brightness (-1) ∧
    execute_media_track 0 = execute_media_track (-1) ∧
    execute_media_seek 0 = execute_media_seek (-1) ∧
    execute_scroll 0 = execute_scroll (-1) := by
  refine ⟨?_, ?_, rfl, rfl, ?_, rfl, rfl, rfl, rfl, rfl⟩ <;> decide

/-- Claim C6: `get_device_id` yields an id exactly for vendor 0x0300, product
0x3007 and a present serial number, and the id is "N1-" followed by the
serial; otherwise it yields `None`. -/
theorem c6_get_device_id_spec :
    ∀ dev : HidDeviceInfo,
      ((∃ s, get_device_id dev = some s) ↔
        (dev.vendor_id = 0x0300 ∧ dev.product_id = 0x3007 ∧
          dev.serial_number ≠ none)) ∧
      (∀ ser : String, dev.vendor_id = 0x0300 → dev.product_id = 0x3007 →
        dev.serial_number = some ser →
        get_device_id dev = some ("N1-" ++ ser)) ∧
      ((dev.vendor_id ≠ 0x0300 ∨ dev.product_id ≠ 0x3007 ∨
          dev.serial_number = none) →
        get_device_id dev = none) := by
  intro dev
  obtain ⟨v, p, sn⟩ := dev
  refine ⟨?_, ?_, ?_⟩
  · by_cases hv : v = 0x0300 <;> by_cases hp : p = 0x3007 <;> cases sn <;>
      simp_all [get_device_id, N1_VID, N1_PID, DEVICE_NAMESPACE]
  · intro ser hv hp hs
    subst hv; subst hp; subst hs
    rfl
  · intro h
    rcases h with h | h | h <;> simp_all [get_device_id, N1_VID, N1_PID]

/-- Witness for C6 at concrete device infos. -/
theorem c6_get_device_id_spec_witness :
    get_device_id
        { vendor_id := 0x0300, product_id := 0x3007, serial_number := some "ABC" } =
      some ("N1-" ++ "ABC") ∧
    get_device_id
        { vendor_id := 0x1234, product_id := 0x3007, serial_number := some "ABC" } =
      none :=
  ⟨(c6_get_device_id_spec _).2.1 "ABC" rfl rfl rfl,
   (c6_get_device_id_spec _).2.2 (Or.inl (by decide))⟩

/-- Claim C4: `handle_device_update` routes a twist of encoder 2 to local
command execution (never a host call), and forwards every other update to the
matching host callback: twists of other encoders to `encoder_change`,
encoder down/up to `encoder_down`/`encoder_up`, and button down/up to
`key_down`/`key_up`. -/
theorem c4_update_routing :
    ∀ (id : String),
      (∀ v : Int,
        handle_device_update id (DeviceStateUpdate.encoderTwist 2 v) =
          HandlerEffect.runLocal (execute_rotation v) ∧
        (handle_device_update id
          (DeviceStateUpdate.encoderTwist 2 v)).isHostCall = false) ∧
      (∀ (e : Nat) (v : Int), e ≠ 2 →
        handle_device_update id (DeviceStateUpdate.encoderTwist e v) =
          HandlerEffect.hostEncoderChange id e v) ∧
      (∀ e : Nat, handle_device_update id (DeviceStateUpdate.encoderDown e) =
        HandlerEffect.hostEncoderDown id e) ∧
      (∀ e : Nat, handle_device_update id (DeviceStateUpdate.encoderUp e) =
        HandlerEffect.hostEncoderUp id e) ∧
      (∀ k : Nat, handle_device_update id (DeviceStateUpdate.buttonDown k) =
        HandlerEffect.hostKeyDown id k) ∧
      (∀ k : Nat, handle_device_update id (DeviceStateUpdate.buttonUp k) =
        HandlerEffect.hostKeyUp id k) := by
  intro id
  refine ⟨fun v => ⟨rfl, rfl⟩, ?_, fun e => rfl, fun e => rfl,
    fun k => rfl, fun k => rfl⟩
  intro e v h
  simp [handle_device_update, h]

/-- Witness for C4 at a concrete update. -/
theorem c4_update_routing_witness :
    handle_device_update "dev" (DeviceStateUpdate.encoderTwist 0 1) =
      HandlerEffect.hostEncoderChange "dev" 0 1 :=
  (c4_update_routing "dev").2.1 0 1 (by decide)

/-- Erasing a key from the token map does not change lookups of other keys. -/
theorem lookup_mapErase (m : List (String × Nat)) (id k : String) (h : k ≠ id) :
    List.lookup k (mapErase m id) = List.lookup k m := by
  induction m with
  | nil => rfl
  | cons p t ih =>
    obtain ⟨a, b⟩ := p
    by_cases ha : a = id
    · subst ha
      have hk : (k == a) = false := beq_eq_false_iff_ne.mpr h
      simp [mapErase, List.filter_cons, List.lookup, hk]
      simpa [mapErase] using ih
    · have ha2 : (a != id) = true := bne_iff_ne.mpr ha
      simp [mapErase, List.filter_cons, List.lookup, ha2]
      by_cases hk : k = a
      · simp [hk]
      · simp [beq_eq_false_iff_ne.mpr hk]
        simpa [mapErase] using ih

/-- Erasing a key from the token map removes its binding. -/
theorem lookup_mapErase_self (m : List (String × Nat)) (id : String) :
    List.lookup id (mapErase m id) = none := by
  induction m with
  | nil => rfl
  | cons p t ih =>
    obtain ⟨a, b⟩ := p
    by_cases ha : a = id
    · subst ha
      simpa [mapErase, List.filter_cons] using ih
    · have ha2 : (a != id) = true := bne_iff_ne.mpr ha
      have hk : (id == a) = false := beq_eq_false_iff_ne.mpr (Ne.symm ha)
      simp [mapErase, List.filter_cons, List.lookup, ha2, hk]
      simpa [mapErase] using ih

/-- Erasing a key from the device set does not change membership of others. -/
theorem mem_listErase_iff (s : List String) (id k : String) (h : k ≠ id) :
    k ∈ listErase s id ↔ k ∈ s := by
  simp [listErase, List.mem_filter, bne_iff_ne, h]

/-- Claim C8: the `Disconnected` branch leaves the whole plugin state intact
and makes no unregister call when the device info is not an N1; when it is,
it removes exactly that id from both maps and unregisters it, leaving every
other entry untouched. -/
theorem c8_disconnect_frame :
    ∀ (info : HidDeviceInfo) (devices : List String)
      (tokens : List (String × Nat)),
      (get_device_id info = none →
        handleDisconnected info devices tokens =
          { devices := devices, tokens := tokens,
            cancelledToken := none, unregistered := none }) ∧
      (∀ id : String, get_device_id info = some id →
        (handleDisconnected info devices tokens).devices = listErase devices id ∧
        (handleDisconnected info devices tokens).tokens = mapErase tokens id ∧
        (handleDisconnected info devices tokens).unregistered = some id ∧
        id ∉ (handleDisconnected info devices tokens).devices ∧
        List.lookup id (handleDisconnected info devices tokens).tokens = none ∧
        (∀ k : String, k ≠ id →
          ((k ∈ (handleDisconnected info devices tokens).devices) ↔
            k ∈ devices) ∧
          List.lookup k (handleDisconnected info devices tokens).tokens =
            List.lookup k tokens)) := by
  intro info devices tokens
  refine ⟨fun h => by simp [handleDisconnected, h], fun id h => ?_⟩
  have hd : handleDisconnected info devices tokens =
      { devices := listErase devices id, tokens := mapErase tokens id,
        cancelledToken := List.lookup id tokens, unregistered := some id } := by
    simp [handleDisconnected, h]
  rw [hd]
  refine ⟨rfl, rfl, rfl, ?_, lookup_mapErase_self tokens id, ?_⟩
  · simp [listErase, List.mem_filter]
  · intro k hk
    exact ⟨mem_listErase_iff devices id k hk, lookup_mapErase tokens id k hk⟩

/-- Witness for C8 at concrete device infos and maps. -/
theorem c8_disconnect_frame_witness :
    handleDisconnected
        { vendor_id := 0x1234, product_id := 0x3007, serial_number := some "S" }
        ["a"] [("a", 0)] =
      { devices := ["a"], tokens := [("a", 0)],
        cancelledToken := none, unregistered := none } ∧
    (handleDisconnected devX ["N1-SER", "a"] [("N1-SER", 0), ("a", 1)]).unregistered =
      some "N1-SER" ∧
    List.lookup "a"
        (handleDisconnected devX ["N1-SER", "a"] [("N1-SER", 0), ("a", 1)]).tokens =
      List.lookup "a" [("N1-SER", 0), ("a", 1)] :=
  ⟨(c8_disconnect_frame _ ["a"] [("a", 0)]).1 (by decide),
   ((c8_disconnect_frame devX _ _).2 "N1-SER" (by decide)).2.2.1,
   (((c8_disconnect_frame devX ["N1-SER", "a"] [("N1-SER", 0), ("a", 1)]).2
      "N1-SER" (by decide)).2.2.2.2.2 "a" (by decide)).2⟩

/-- Counterexample to claim C7 as stated: the interleaving in which a second
scan runs while the first session for the same device is still connecting
(before line 287 populates the `devices` map) is reachable from the initial
state and ends with two read loops running for the same device id. -/
theorem c7_counterexample :
    Steps initSys dupLoopSys ∧ ¬ readLoopCount dupLoopSys idX ≤ 1 := by
  constructor
  · have s01 : Step initSys (Label.startScan [devX]) traceA :=
      Step.startScan initSys [devX] rfl
    have s12 : Step traceA (Label.spawn idX) traceB :=
      Step.scanSpawn traceA devX [] idX rfl (by decide) (by decide)
    have s23 : Step traceB (Label.startScan [devX]) traceC :=
      Step.startScan traceB [devX] rfl
    have s34 : Step traceC (Label.spawn idX) traceD :=
      Step.scanSpawn traceC devX [] idX rfl (by decide) (by decide)
    have s45 : Step traceD (Label.register idX) traceE :=
      Step.register traceD []
        [{ id := idX, tok := 1, phase := SessionPhase.starting }] idX 0 rfl
    have s56 : Step traceE (Label.register idX) dupLoopSys :=
      Step.register traceE
        [{ id := idX, tok := 0, phase := SessionPhase.looping }] [] idX 1 rfl
    exact Steps.tail (Steps.tail (Steps.tail (Steps.tail (Steps.tail
      (Steps.tail (Steps.refl initSys) _ s01) _ s12) _ s23) _ s34) _ s45) _ s56
  · decide

/-- Claim C7 (amended): `scan_and_connect_devices` only spawns a session for
an id absent from the `devices` map (but that map is populated only at
registration time, so two read loops for one id remain reachable, see the
counterexample); a read loop whose token is cancelled has its terminating
step enabled, and that step removes the id from both the `devices` and
`tokens` maps and unregisters the device from the host. -/
theorem c7_amended_guard_and_cleanup :
    (∀ (s s' : Sys) (id : String),
      Step s (Label.spawn id) s' → id ∉ s.devices) ∧
    (∀ (s s' : Sys) (id : String) (tok : Nat),
      Step s (Label.cancelTerm id tok) s' →
      tok ∈ s.cancelled ∧
      s'.devices = listErase s.devices id ∧
      s'.tokens = mapErase s.tokens id ∧
      s'.unregList = s.unregList ++ [id]) ∧
    (∀ (s : Sys) (pre post : List SessionTask) (id : String) (tok : Nat),
      s.sessions =
        pre ++ { id := id, tok := tok, phase := SessionPhase.looping } :: post →
      tok ∈ s.cancelled →
      ∃ s', Step s (Label.cancelTerm id tok) s') := by
  refine ⟨?_, ?_, ?_⟩
  · intro s s' id h
    cases h
    assumption
  · intro s s' id tok h
    cases h
    exact ⟨by assumption, rfl, rfl, rfl⟩
  · intro s pre post id tok hs hc
    exact ⟨_, Step.cancelTerm s pre post id tok hs hc⟩

/-- Witness for the amended C7 at concrete states. -/
theorem c7_amended_guard_and_cleanup_witness :
    (idX ∉ traceA.devices) ∧
    (0 ∈ cancelSys.cancelled ∧
      afterCancelSys.devices = listErase cancelSys.devices idX ∧
      afterCancelSys.tokens = mapErase cancelSys.tokens idX ∧
      afterCancelSys.unregList = cancelSys.unregList ++ [idX]) ∧
    (∃ s', Step cancelSys (Label.cancelTerm idX 0) s') :=
  ⟨c7_amended_guard_and_cleanup.1 traceA traceB idX
      (Step.scanSpawn traceA devX [] idX rfl (by decide) (by decide)),
   c7_amended_guard_and_cleanup.2.1 cancelSys afterCancelSys idX 0
      (Step.cancelTerm cancelSys [] [] idX 0 rfl (by decide)),
   c7_amended_guard_and_cleanup.2.2 cancelSys [] [] idX 0 rfl (by decide)⟩

end N1Plugin
